import Mathlib

/-!
Verification of the configuration reload loop and diff engine of
`pkg/bgp/config/serve.go`.

The diff functions (`UpdatePeerGroupConfig`, `UpdateNeighborConfig`,
`CheckPolicyDifference`) and the reload loop (`ReadConfigfileServe`) are
embedded from the source.  The entity types and the helper functions
(`existPeerGroup`, `inSlice`, the deep-equality `Equal` methods) live in
other files of the repository's `config` package and are modelled from the
spec, as marked on each definition.
-/

namespace Config

/-- Modelled from the spec: global settings, opaque pass-through data for
the diff engine (the `Global` section of `BgpConfigSet`). -/
structure Global where
  payload : String
deriving DecidableEq, Repr

/-- Modelled from the spec: the configuration payload of a peer group.
A PeerGroup is identified by its name (`PeerGroupName`); any other field
(represented here by `peerAs`, the `asn` of the spec's scenarios) takes
part in deep equality but not in identity. -/
structure PeerGroupConfig where
  peerGroupName : String
  peerAs : Nat
deriving DecidableEq, Repr

/-- Modelled from the spec: a peer group entity; the diff engine reads
`n.Config.PeerGroupName` for identity and compares whole values for deep
equality. -/
structure PeerGroup where
  config : PeerGroupConfig
deriving DecidableEq, Repr

/-- Modelled from the spec: the configuration payload of a neighbor.
A Neighbor is identified by its peer address (`NeighborAddress`); other
fields (represented by `peerAs`) take part in deep equality only. -/
structure NeighborConfig where
  neighborAddress : String
  peerAs : Nat
deriving DecidableEq, Repr

/-- Modelled from the spec: a neighbor entity, identified by address. -/
structure Neighbor where
  config : NeighborConfig
deriving DecidableEq, Repr

/-- Modelled from the spec: opaque auxiliary section (RPKI server). -/
structure RpkiServer where
  payload : String
deriving DecidableEq, Repr

/-- Modelled from the spec: opaque auxiliary section (BMP server). -/
structure BmpServer where
  payload : String
deriving DecidableEq, Repr

/-- Modelled from the spec: opaque auxiliary section (VRF). -/
structure Vrf where
  payload : String
deriving DecidableEq, Repr

/-- Modelled from the spec: opaque auxiliary section (MRT dump). -/
structure Mrt where
  payload : String
deriving DecidableEq, Repr

/-- Modelled from the spec: opaque auxiliary section (collector). -/
structure Collector where
  payload : String
deriving DecidableEq, Repr

/-- Modelled from the spec: the defined-sets input of the routing policy,
opaque to the diff engine apart from deep equality. -/
structure DefinedSets where
  payload : String
deriving DecidableEq, Repr

/-- Modelled from the spec: one policy definition; ordering of the
sequence of policy definitions is significant. -/
structure PolicyDefinition where
  name : String
  payload : String
deriving DecidableEq, Repr

/-- Modelled from the spec: opaque auxiliary section (dynamic-neighbor
template). -/
structure DynamicNeighbor where
  payload : String
deriving DecidableEq, Repr

/-- Modelled from the spec: opaque auxiliary section (porter-specific
configuration). -/
structure PorterConfig where
  payload : String
deriving DecidableEq, Repr

/-- Embeds `BgpConfigSet` of `serve.go` (lines 14-27): one complete
configuration snapshot. -/
structure BgpConfigSet where
  global : Global
  neighbors : List Neighbor
  peerGroups : List PeerGroup
  rpkiServers : List RpkiServer
  bmpServers : List BmpServer
  vrfs : List Vrf
  mrtDump : List Mrt
  collector : Collector
  definedSets : DefinedSets
  policyDefinitions : List PolicyDefinition
  dynamicNeighbors : List DynamicNeighbor
  porterConfig : PorterConfig
deriving DecidableEq, Repr

/-- Embeds `RoutingPolicy`: the view {DefinedSets, ordered sequence of
PolicyDefinition} projected out of a snapshot. -/
structure RoutingPolicy where
  definedSets : DefinedSets
  policyDefinitions : List PolicyDefinition
deriving DecidableEq, Repr

/-- Modelled from the spec: deep equality of peer groups — a full
structural comparison over all configured fields, not just the name
(the `(*PeerGroup).Equal` method, defined outside `serve.go`). -/
def PeerGroup.Equal (a b : PeerGroup) : Bool :=
  decide (a = b)

/-- Modelled from the spec: deep equality of neighbors — a full
structural comparison (the `(*Neighbor).Equal` method, defined outside
`serve.go`). -/
def Neighbor.Equal (a b : Neighbor) : Bool :=
  decide (a = b)

/-- Modelled from the spec: deep equality of routing policies — identical
DefinedSets and an identical ordered PolicyDefinition sequence (the
`(*RoutingPolicy).Equal` method, defined outside `serve.go`). -/
def RoutingPolicy.Equal (a b : RoutingPolicy) : Bool :=
  decide (a.definedSets = b.definedSets) &&
    decide (a.policyDefinitions = b.policyDefinitions)

/-- Modelled from the spec: lookup of a peer group by name — returns the
first peer group of `b` whose name equals `name`, or `none` (the
`existPeerGroup` helper, defined outside `serve.go`, returns the index or
`-1`; the diff then reads the element at that index, so returning the
element itself is equivalent). -/
def existPeerGroup (name : String) (b : List PeerGroup) : Option PeerGroup :=
  b.find? (fun pg => pg.config.peerGroupName == name)

/-- Modelled from the spec: lookup of a neighbor keyed by peer address —
returns the first neighbor of `b` whose address equals the address of
`n`, or `none` (the `inSlice` helper, defined outside `serve.go`). -/
def inSlice (n : Neighbor) (b : List Neighbor) : Option Neighbor :=
  b.find? (fun m => m.config.neighborAddress == n.config.neighborAddress)

/-- Embeds `ConfigSetToRoutingPolicy` of `serve.go` (lines 102-107). -/
def ConfigSetToRoutingPolicy (c : BgpConfigSet) : RoutingPolicy :=
  ⟨c.definedSets, c.policyDefinitions⟩

/-- Embeds `UpdatePeerGroupConfig` of `serve.go` (lines 109-134).  The
first loop appends, in order of `newC.PeerGroups`, to `addedPg` (name not
found in `curC`) or `updatedPg` (found but not deep-equal); the second
loop appends, in order of `curC.PeerGroups`, to `deletedPg` (name absent
from `newC`).  Returned as (added, deleted, updated). -/
def UpdatePeerGroupConfig (curC newC : BgpConfigSet) :
    List PeerGroup × List PeerGroup × List PeerGroup :=
  let addedPg := newC.peerGroups.filter
    (fun n => (existPeerGroup n.config.peerGroupName curC.peerGroups).isNone)
  let updatedPg := newC.peerGroups.filter
    (fun n =>
      match existPeerGroup n.config.peerGroupName curC.peerGroups with
      | none => false
      | some cur => !(n.Equal cur))
  let deletedPg := curC.peerGroups.filter
    (fun n => (existPeerGroup n.config.peerGroupName newC.peerGroups).isNone)
  (addedPg, deletedPg, updatedPg)

/-- Embeds `UpdateNeighborConfig` of `serve.go` (lines 136-161): the same
algorithm as the peer-group diff, keyed by peer address via `inSlice`.
Returned as (added, deleted, updated). -/
def UpdateNeighborConfig (curC newC : BgpConfigSet) :
    List Neighbor × List Neighbor × List Neighbor :=
  let added := newC.neighbors.filter
    (fun n => (inSlice n curC.neighbors).isNone)
  let updated := newC.neighbors.filter
    (fun n =>
      match inSlice n curC.neighbors with
      | none => false
      | some cur => !(n.Equal cur))
  let deleted := curC.neighbors.filter
    (fun n => (inSlice n newC.neighbors).isNone)
  (added, deleted, updated)

/-- Embeds `CheckPolicyDifference` of `serve.go` (lines 163-183); the
`nil` pointers of the source become `none`. -/
def CheckPolicyDifference
    (currentPolicy newPolicy : Option RoutingPolicy) : Bool :=
  match currentPolicy, newPolicy with
  | none, none => false
  | some c, some n => !(c.Equal n)
  | _, _ => true

/-- Outcome of one iteration of the `ReadConfigfileServe` body: the
result of `ReadConfigfile(v)`, abstracting its effects.  `ok c` is a
successful parse; `notFound` is an error for which `os.IsNotExist`
holds; `otherError` is any other error (parse error, defaults error). -/
inductive LoadResult where
  | ok (c : BgpConfigSet)
  | notFound
  | otherError
deriving DecidableEq, Repr

/-- The mutable state of the `ReadConfigfileServe` loop (`serve.go` line
58): `cnt` counts successful publishes, `notFoundCnt` counts not-found
load failures. -/
structure LoopState where
  cnt : Nat
  notFoundCnt : Nat
deriving DecidableEq, Repr

/-- Where control goes at the end of one loop iteration of
`ReadConfigfileServe`: `retry` is `time.Sleep(5); continue` (the
sleep-and-retry path, re-entering the load without awaiting an event);
`awaitEvent` is falling through to `NEXT:` and blocking on
`sigReloadConfig`; `fatalExit` is `log.Fatalf`, which terminates the
process. -/
inductive StepOutcome where
  | retry
  | awaitEvent
  | fatalExit
deriving DecidableEq, Repr

/-- The observable result of one iteration of the loop body:
the successor state, the value sent on `configCh` (if any), whether a
warning-level report was logged, and where control goes next. -/
structure StepResult where
  state : LoopState
  published : Option BgpConfigSet
  warned : Bool
  outcome : StepOutcome
deriving DecidableEq, Repr

/-- Embeds one iteration of the body of `ReadConfigfileServe`
(`serve.go` lines 60-99), as a function of the current loop state and
the result of `ReadConfigfile(v)`:

* success: `cnt++`, the snapshot is sent on `configCh`, control falls
  through to `NEXT:` (await event);
* `os.IsNotExist` error: `Warn` is logged and `notFoundCnt++`; if
  `notFoundCnt < 5` the loop sleeps and continues (retry); otherwise it
  falls through to `ERROR:` — `Fatalf` when `cnt == 0`, `Warningf` and
  then `NEXT:` otherwise;
* any other error: directly to `ERROR:` — `Fatalf` when `cnt == 0`,
  `Warningf` and then `NEXT:` otherwise. -/
def loopStep (s : LoopState) (r : LoadResult) : StepResult :=
  match r with
  | .ok c => ⟨⟨s.cnt + 1, s.notFoundCnt⟩, some c, false, .awaitEvent⟩
  | .notFound =>
      let nfc := s.notFoundCnt + 1
      if nfc < 5 then
        ⟨⟨s.cnt, nfc⟩, none, true, .retry⟩
      else if s.cnt = 0 then
        ⟨⟨s.cnt, nfc⟩, none, true, .fatalExit⟩
      else
        ⟨⟨s.cnt, nfc⟩, none, true, .awaitEvent⟩
  | .otherError =>
      if s.cnt = 0 then
        ⟨⟨s.cnt, s.notFoundCnt⟩, none, false, .fatalExit⟩
      else
        ⟨⟨s.cnt, s.notFoundCnt⟩, none, true, .awaitEvent⟩

/-- The loop state together with the last snapshot published on
`configCh` (the consumer's current configuration), to express
"keeps the previously published snapshot as current". -/
structure RunState where
  loop : LoopState
  current : Option BgpConfigSet
deriving DecidableEq, Repr

/-- One iteration of the loop body, tracking the consumer's current
snapshot: the current snapshot is replaced exactly when a new one is
published. -/
def runStep (rs : RunState) (r : LoadResult) : RunState × StepResult :=
  let t := loopStep rs.loop r
  (⟨t.state,
    match t.published with
    | some c => some c
    | none => rs.current⟩, t)

/-- Runs the loop on a list of successive load results, following the
`continue` of the sleep-and-retry path: the run stops at the first
iteration whose outcome is not `retry`, returning the final state, the
snapshot published by that iteration (if any) and its outcome (`none`
when the input list was exhausted while still retrying). -/
def runUntilSettle :
    LoopState → List LoadResult →
      LoopState × Option BgpConfigSet × Option StepOutcome
  | s, [] => (s, none, none)
  | s, r :: rest =>
      let t := loopStep s r
      match t.outcome with
      | .retry => runUntilSettle t.state rest
      | o => (t.state, t.published, some o)

/-- Names of the peer groups of a list are pairwise distinct — the
spec's invariant I1 for a well-formed snapshot (uniqueness is a
parse-time concern, not re-validated by the diff engine). -/
def peerGroupNamesUnique (l : List PeerGroup) : Prop :=
  List.Pairwise (fun a b => a.config.peerGroupName ≠ b.config.peerGroupName) l

/-- Test fixture: a snapshot with the given peer groups and neighbors
and empty auxiliary sections. -/
def mkConfig (pgs : List PeerGroup) (nbrs : List Neighbor) : BgpConfigSet :=
  ⟨⟨""⟩, nbrs, pgs, [], [], [], [], ⟨""⟩, ⟨""⟩, [], [], ⟨""⟩⟩

/-- Test fixture: the peer group {name "A", asn 65001} of the spec's
scenario. -/
def pgA1 : PeerGroup := ⟨⟨"A", 65001⟩⟩

/-- Test fixture: the peer group {name "A", asn 65002}. -/
def pgA2 : PeerGroup := ⟨⟨"A", 65002⟩⟩

/-- Test fixture: the peer group {name "B", asn 65003}. -/
def pgB : PeerGroup := ⟨⟨"B", 65003⟩⟩

/-- Test fixture: the old snapshot of the peer-group scenario. -/
def cfgOld : BgpConfigSet := mkConfig [pgA1] []

/-- Test fixture: the new snapshot of the peer-group scenario. -/
def cfgNew : BgpConfigSet := mkConfig [pgA2, pgB] []

/-- Test fixture: the neighbor with address 10.0.0.1. -/
def nbr1 : Neighbor := ⟨⟨"10.0.0.1", 0⟩⟩

/-- Test fixture: the neighbor with address 10.0.0.2. -/
def nbr2 : Neighbor := ⟨⟨"10.0.0.2", 0⟩⟩

/-- Test fixture: the old snapshot of the neighbor scenario. -/
def cfgNbrOld : BgpConfigSet := mkConfig [] [nbr1, nbr2]

/-- Test fixture: the new snapshot of the neighbor scenario. -/
def cfgNbrNew : BgpConfigSet := mkConfig [] [nbr1]

/-- Test fixture: a non-null routing policy. -/
def samplePolicy : RoutingPolicy := ⟨⟨"ds"⟩, [⟨"p1", "accept"⟩]⟩

/-- When some element of `l` carries the looked-up name, the lookup
succeeds. -/
theorem existPeerGroup_ne_none {name : String} {l : List PeerGroup}
    (q : PeerGroup) (hq : q ∈ l) (hname : q.config.peerGroupName = name) :
    existPeerGroup name l ≠ none := by
  intro hn
  rw [existPeerGroup, List.find?_eq_none] at hn
  exact hn q hq (by simp [hname])

/-- When some element of `l` carries the address of `n`, the lookup
succeeds. -/
theorem inSlice_ne_none {n : Neighbor} {l : List Neighbor}
    (q : Neighbor) (hq : q ∈ l)
    (haddr : q.config.neighborAddress = n.config.neighborAddress) :
    inSlice n l ≠ none := by
  intro hn
  rw [inSlice, List.find?_eq_none] at hn
  exact hn q hq (by simp [haddr])

/-- Under pairwise-distinct names, looking an element of `l` up by its
own name returns that element. -/
theorem existPeerGroup_self {l : List PeerGroup}
    (hu : peerGroupNamesUnique l) {n : PeerGroup} (hn : n ∈ l) :
    existPeerGroup n.config.peerGroupName l = some n := by
  induction l with
  | nil => cases hn
  | cons a t ih =>
      rcases List.mem_cons.mp hn with h | h
      · subst h
        simp [existPeerGroup]
      · have hne : a.config.peerGroupName ≠ n.config.peerGroupName :=
          (List.pairwise_cons.mp hu).1 n h
        have ht := (List.pairwise_cons.mp hu).2
        simpa [existPeerGroup, List.find?_cons, hne] using ih ht h

/-- Membership in the `added` component of the peer-group diff. -/
theorem mem_addedPg_iff {curC newC : BgpConfigSet} {pg : PeerGroup} :
    pg ∈ (UpdatePeerGroupConfig curC newC).1 ↔
      pg ∈ newC.peerGroups ∧
        existPeerGroup pg.config.peerGroupName curC.peerGroups = none := by
  simp [UpdatePeerGroupConfig, List.mem_filter, Option.isNone_iff_eq_none]

/-- Membership in the `deleted` component of the peer-group diff. -/
theorem mem_deletedPg_iff {curC newC : BgpConfigSet} {pg : PeerGroup} :
    pg ∈ (UpdatePeerGroupConfig curC newC).2.1 ↔
      pg ∈ curC.peerGroups ∧
        existPeerGroup pg.config.peerGroupName newC.peerGroups = none := by
  simp [UpdatePeerGroupConfig, List.mem_filter, Option.isNone_iff_eq_none]

/-- Membership in the `updated` component of the peer-group diff. -/
theorem mem_updatedPg_iff {curC newC : BgpConfigSet} {pg : PeerGroup} :
    pg ∈ (UpdatePeerGroupConfig curC newC).2.2 ↔
      pg ∈ newC.peerGroups ∧
        ∃ cur, existPeerGroup pg.config.peerGroupName curC.peerGroups
            = some cur ∧ pg.Equal cur = false := by
  simp only [UpdatePeerGroupConfig, List.mem_filter]
  refine and_congr_right fun _ => ?_
  cases h : existPeerGroup pg.config.peerGroupName curC.peerGroups with
  | none => simp [h]
  | some cur => simp [h, Bool.not_eq_true']

/-- Membership in the `added` component of the neighbor diff. -/
theorem mem_addedNbr_iff {curC newC : BgpConfigSet} {nb : Neighbor} :
    nb ∈ (UpdateNeighborConfig curC newC).1 ↔
      nb ∈ newC.neighbors ∧ inSlice nb curC.neighbors = none := by
  simp [UpdateNeighborConfig, List.mem_filter, Option.isNone_iff_eq_none]

/-- Membership in the `deleted` component of the neighbor diff. -/
theorem mem_deletedNbr_iff {curC newC : BgpConfigSet} {nb : Neighbor} :
    nb ∈ (UpdateNeighborConfig curC newC).2.1 ↔
      nb ∈ curC.neighbors ∧ inSlice nb newC.neighbors = none := by
  simp [UpdateNeighborConfig, List.mem_filter, Option.isNone_iff_eq_none]

/-- Membership in the `updated` component of the neighbor diff. -/
theorem mem_updatedNbr_iff {curC newC : BgpConfigSet} {nb : Neighbor} :
    nb ∈ (UpdateNeighborConfig curC newC).2.2 ↔
      nb ∈ newC.neighbors ∧
        ∃ cur, inSlice nb curC.neighbors = some cur
          ∧ nb.Equal cur = false := by
  simp only [UpdateNeighborConfig, List.mem_filter]
  refine and_congr_right fun _ => ?_
  cases h : inSlice nb curC.neighbors with
  | none => simp [h]
  | some cur => simp [h, Bool.not_eq_true']

/-- Claim C1 is refuted at a concrete input: in the state after one
successful publish (`cnt = 1`) with no prior not-found failures, a
NotFound load failure makes the loop take the sleep-and-retry path
(`time.Sleep(5); continue`), not the return to awaiting the next change
notification that the claim asserts. -/
theorem notFound_after_publish_counterexample :
    (loopStep ⟨1, 0⟩ .notFound).outcome = .retry
    ∧ (loopStep ⟨1, 0⟩ .notFound).outcome ≠ .awaitEvent := by
  decide

/-- Claim C1 (amended): on a NotFound load failure after at least one
successful publish, the loop logs a warning, publishes nothing (the
previously published snapshot stays current) and never exits fatally;
but it sleeps and retries the load whenever the cumulative, never-reset
not-found counter is still below 5 after the increment, and only once
that counter has reached 5 does it return to awaiting the next change
notification. -/
theorem notFound_after_publish_behavior (rs : RunState)
    (h : 1 ≤ rs.loop.cnt) :
    (runStep rs .notFound).1.current = rs.current
    ∧ (runStep rs .notFound).2.warned = true
    ∧ (runStep rs .notFound).2.published = none
    ∧ (runStep rs .notFound).2.outcome ≠ .fatalExit
    ∧ (rs.loop.notFoundCnt + 1 < 5 →
        (runStep rs .notFound).2.outcome = .retry)
    ∧ (¬ rs.loop.notFoundCnt + 1 < 5 →
        (runStep rs .notFound).2.outcome = .awaitEvent) := by
  have hc : rs.loop.cnt ≠ 0 := by omega
  by_cases h5 : rs.loop.notFoundCnt + 1 < 5 <;>
    simp [runStep, loopStep, hc, h5]

/-- Witness for the amended claim C1 at the concrete state
`cnt = 1, notFoundCnt = 0`. -/
theorem notFound_after_publish_behavior_witness :
    (runStep ⟨⟨1, 0⟩, none⟩ .notFound).2.outcome = .retry :=
  ((notFound_after_publish_behavior ⟨⟨1, 0⟩, none⟩ (by decide)).2.2.2.2.1)
    (by decide)

/-- Claim C2: starting from the initial state, `k < 5` consecutive
NotFound failures followed by a successful load end the retry phase with
the snapshot published and the loop awaiting the next event (with the
not-found counter at `k`), while five consecutive NotFound failures with
no snapshot ever published end in a fatal process exit with nothing
published. -/
theorem startup_notFound_retry_policy (k : Nat) (c : BgpConfigSet)
    (h : k < 5) :
    runUntilSettle ⟨0, 0⟩ (List.replicate k .notFound ++ [.ok c])
      = (⟨1, k⟩, some c, some .awaitEvent)
    ∧ runUntilSettle ⟨0, 0⟩ (List.replicate 5 .notFound)
      = (⟨0, 5⟩, none, some .fatalExit) := by
  refine ⟨?_, rfl⟩
  interval_cases k <;> rfl

/-- Witness for claim C2: the file becomes available on the 3rd retry. -/
theorem startup_notFound_retry_policy_witness :
    runUntilSettle ⟨0, 0⟩ (List.replicate 3 .notFound ++ [.ok cfgOld])
      = (⟨1, 3⟩, some cfgOld, some .awaitEvent)
    ∧ runUntilSettle ⟨0, 0⟩ (List.replicate 5 .notFound)
      = (⟨0, 5⟩, none, some .fatalExit) :=
  startup_notFound_retry_policy 3 cfgOld (by decide)

/-- Claim C3: after the first successful publish (`cnt ≥ 1`), every load
error — NotFound or any other kind, parse errors included — results in a
logged warning, nothing sent on the consumer channel for that attempt,
the previously published snapshot remaining current, and never a fatal
process exit. -/
theorem steady_state_errors_swallowed (rs : RunState) (r : LoadResult)
    (hcnt : 1 ≤ rs.loop.cnt) (herr : r = .notFound ∨ r = .otherError) :
    (runStep rs r).1.current = rs.current
    ∧ (runStep rs r).2.warned = true
    ∧ (runStep rs r).2.published = none
    ∧ (runStep rs r).2.outcome ≠ .fatalExit := by
  have hc : rs.loop.cnt ≠ 0 := by omega
  rcases herr with rfl | rfl
  · by_cases h5 : rs.loop.notFoundCnt + 1 < 5 <;>
      simp [runStep, loopStep, hc, h5]
  · simp [runStep, loopStep, hc]

/-- Witness for claim C3 at the concrete state `cnt = 1` with a parse
error. -/
theorem steady_state_errors_swallowed_witness :
    (runStep ⟨⟨1, 0⟩, some cfgOld⟩ .otherError).1.current = some cfgOld
    ∧ (runStep ⟨⟨1, 0⟩, some cfgOld⟩ .otherError).2.warned = true
    ∧ (runStep ⟨⟨1, 0⟩, some cfgOld⟩ .otherError).2.published = none
    ∧ (runStep ⟨⟨1, 0⟩, some cfgOld⟩ .otherError).2.outcome ≠ .fatalExit :=
  steady_state_errors_swallowed ⟨⟨1, 0⟩, some cfgOld⟩ .otherError
    (by decide) (Or.inr rfl)

/-- Claim C4: the peer-group diff puts into `added` each peer group of
the new snapshot whose name is not found among the old snapshot's peer
groups; into `updated` each peer group of the new snapshot (the new
value) whose name is found in the old snapshot but whose value is not
deep-equal to the found one (name-matched deep-equal pairs are omitted);
and into `deleted` each peer group of the old snapshot whose name is
absent from the new one.  In particular, old `[{A, 65001}]` versus new
`[{A, 65002}, {B, 65003}]` yields added `[B]`, deleted `[]`, updated
`[{A, 65002}]`. -/
theorem updatePeerGroupConfig_spec :
    (∀ (curC newC : BgpConfigSet) (pg : PeerGroup),
      (pg ∈ (UpdatePeerGroupConfig curC newC).1 ↔
        pg ∈ newC.peerGroups ∧
          existPeerGroup pg.config.peerGroupName curC.peerGroups = none)
      ∧ (pg ∈ (UpdatePeerGroupConfig curC newC).2.2 ↔
        pg ∈ newC.peerGroups ∧
          ∃ cur, existPeerGroup pg.config.peerGroupName curC.peerGroups
              = some cur ∧ pg.Equal cur = false)
      ∧ (pg ∈ (UpdatePeerGroupConfig curC newC).2.1 ↔
        pg ∈ curC.peerGroups ∧
          existPeerGroup pg.config.peerGroupName newC.peerGroups = none))
    ∧ UpdatePeerGroupConfig cfgOld cfgNew = ([pgB], [], [pgA2]) :=
  ⟨fun _ _ _ => ⟨mem_addedPg_iff, mem_updatedPg_iff, mem_deletedPg_iff⟩,
    by decide⟩

/-- Witness for claim C4 at the scenario snapshots and the peer group
`{B, 65003}`. -/
theorem updatePeerGroupConfig_spec_witness :
    (pgB ∈ (UpdatePeerGroupConfig cfgOld cfgNew).1 ↔
      pgB ∈ cfgNew.peerGroups ∧
        existPeerGroup pgB.config.peerGroupName cfgOld.peerGroups = none)
    ∧ UpdatePeerGroupConfig cfgOld cfgNew = ([pgB], [], [pgA2]) :=
  ⟨(updatePeerGroupConfig_spec.1 cfgOld cfgNew pgB).1,
    updatePeerGroupConfig_spec.2⟩

/-- Claim C5: the neighbor diff follows the same algorithm keyed by peer
address: a neighbor of the new snapshot whose address is absent from the
old one is added, one whose address is present but whose value is not
deep-equal is updated (with the new value), and a neighbor of the old
snapshot whose address is absent from the new one is deleted.  In
particular, old `[{10.0.0.1}, {10.0.0.2}]` versus new `[{10.0.0.1}]`
yields added `[]`, deleted `[{10.0.0.2}]`, updated `[]`. -/
theorem updateNeighborConfig_spec :
    (∀ (curC newC : BgpConfigSet) (nb : Neighbor),
      (nb ∈ (UpdateNeighborConfig curC newC).1 ↔
        nb ∈ newC.neighbors ∧ inSlice nb curC.neighbors = none)
      ∧ (nb ∈ (UpdateNeighborConfig curC newC).2.2 ↔
        nb ∈ newC.neighbors ∧
          ∃ cur, inSlice nb curC.neighbors = some cur
            ∧ nb.Equal cur = false)
      ∧ (nb ∈ (UpdateNeighborConfig curC newC).2.1 ↔
        nb ∈ curC.neighbors ∧ inSlice nb newC.neighbors = none))
    ∧ UpdateNeighborConfig cfgNbrOld cfgNbrNew = ([], [nbr2], []) :=
  ⟨fun _ _ _ => ⟨mem_addedNbr_iff, mem_updatedNbr_iff, mem_deletedNbr_iff⟩,
    by decide⟩

/-- Witness for claim C5 at the scenario snapshots and the neighbor with
address 10.0.0.2. -/
theorem updateNeighborConfig_spec_witness :
    (nbr2 ∈ (UpdateNeighborConfig cfgNbrOld cfgNbrNew).2.1 ↔
      nbr2 ∈ cfgNbrOld.neighbors ∧ inSlice nbr2 cfgNbrNew.neighbors = none)
    ∧ UpdateNeighborConfig cfgNbrOld cfgNbrNew = ([], [nbr2], []) :=
  ⟨(updateNeighborConfig_spec.1 cfgNbrOld cfgNbrNew nbr2).2.2,
    updateNeighborConfig_spec.2⟩

/-- Claim C6: for all snapshots A and B, the `deleted` component of the
peer-group diff of (A, B) equals the `added` component of the diff of
(B, A), and conversely — the diff is anti-symmetric in added/deleted. -/
theorem updatePeerGroupConfig_antisymm (A B : BgpConfigSet) :
    (UpdatePeerGroupConfig A B).2.1 = (UpdatePeerGroupConfig B A).1
    ∧ (UpdatePeerGroupConfig A B).1 = (UpdatePeerGroupConfig B A).2.1 :=
  ⟨rfl, rfl⟩

/-- Witness for claim C6 at the scenario snapshots. -/
theorem updatePeerGroupConfig_antisymm_witness :
    (UpdatePeerGroupConfig cfgOld cfgNew).2.1
      = (UpdatePeerGroupConfig cfgNew cfgOld).1
    ∧ (UpdatePeerGroupConfig cfgOld cfgNew).1
      = (UpdatePeerGroupConfig cfgNew cfgOld).2.1 :=
  updatePeerGroupConfig_antisymm cfgOld cfgNew

/-- Claim C7: diffing a snapshot against itself yields empty added,
deleted and updated components (stated under the spec's invariant I1
that peer-group names are unique within a snapshot). -/
theorem updatePeerGroupConfig_self (A : BgpConfigSet)
    (h : peerGroupNamesUnique A.peerGroups) :
    UpdatePeerGroupConfig A A = ([], [], []) := by
  have key : ∀ n ∈ A.peerGroups,
      existPeerGroup n.config.peerGroupName A.peerGroups = some n :=
    fun n hn => existPeerGroup_self h hn
  have h1 : (A.peerGroups.filter fun n =>
      (existPeerGroup n.config.peerGroupName A.peerGroups).isNone) = [] := by
    rw [List.filter_eq_nil_iff]
    intro n hn
    simp [key n hn]
  have h2 : (A.peerGroups.filter fun n =>
      match existPeerGroup n.config.peerGroupName A.peerGroups with
      | none => false
      | some cur => !(n.Equal cur)) = [] := by
    rw [List.filter_eq_nil_iff]
    intro n hn
    simp [key n hn, PeerGroup.Equal]
  simp only [UpdatePeerGroupConfig, h1, h2]

/-- Witness for claim C7 at a concrete snapshot with two distinct peer
groups. -/
theorem updatePeerGroupConfig_self_witness :
    UpdatePeerGroupConfig cfgNew cfgNew = ([], [], []) :=
  updatePeerGroupConfig_self cfgNew
    (by unfold peerGroupNamesUnique; decide)

/-- Claim C8: the routing-policy diff returns false when both policies
are null, true when exactly one is null, and for two present policies it
returns false precisely when they have identical DefinedSets and an
identical ordered PolicyDefinition sequence (true precisely when they
are not deep-equal). -/
theorem checkPolicyDifference_spec :
    CheckPolicyDifference none none = false
    ∧ (∀ P : RoutingPolicy,
        CheckPolicyDifference none (some P) = true
        ∧ CheckPolicyDifference (some P) none = true)
    ∧ (∀ P Q : RoutingPolicy,
        (CheckPolicyDifference (some P) (some Q) = false ↔
          P.definedSets = Q.definedSets ∧
            P.policyDefinitions = Q.policyDefinitions)
        ∧ (CheckPolicyDifference (some P) (some Q) = true ↔
          ¬(P.definedSets = Q.definedSets ∧
            P.policyDefinitions = Q.policyDefinitions))) := by
  refine ⟨rfl, fun P => ⟨rfl, rfl⟩, fun P Q => ⟨?_, ?_⟩⟩
  · simp [CheckPolicyDifference, RoutingPolicy.Equal]
  · simp only [CheckPolicyDifference, RoutingPolicy.Equal]
    simp only [Bool.not_eq_true', Bool.and_eq_false_iff, not_and,
      decide_eq_false_iff_not, Bool.not_eq_false, Bool.and_eq_true,
      decide_eq_true_eq]
    tauto

/-- Witness for claim C8 at a concrete non-null policy. -/
theorem checkPolicyDifference_spec_witness :
    CheckPolicyDifference none (some samplePolicy) = true
    ∧ CheckPolicyDifference (some samplePolicy) none = true :=
  checkPolicyDifference_spec.2.1 samplePolicy

/-- Claim C9: an entity present in both snapshots under the same
identity key (peer-group name, neighbor address) never lands in `added`
or `deleted`; an entity of `updated` is in neither `added` nor
`deleted`; and no entity is in both `added` and `deleted` of one diff
invocation — for the peer-group diff and the neighbor diff alike. -/
theorem diff_added_deleted_disjoint (curC newC : BgpConfigSet) :
    (∀ pg : PeerGroup,
      ((∃ q ∈ curC.peerGroups,
          q.config.peerGroupName = pg.config.peerGroupName) →
       (∃ q ∈ newC.peerGroups,
          q.config.peerGroupName = pg.config.peerGroupName) →
        pg ∉ (UpdatePeerGroupConfig curC newC).1
        ∧ pg ∉ (UpdatePeerGroupConfig curC newC).2.1)
      ∧ (pg ∈ (UpdatePeerGroupConfig curC newC).2.2 →
          pg ∉ (UpdatePeerGroupConfig curC newC).1
          ∧ pg ∉ (UpdatePeerGroupConfig curC newC).2.1)
      ∧ ¬(pg ∈ (UpdatePeerGroupConfig curC newC).1
          ∧ pg ∈ (UpdatePeerGroupConfig curC newC).2.1))
    ∧ (∀ nb : Neighbor,
      ((∃ q ∈ curC.neighbors,
          q.config.neighborAddress = nb.config.neighborAddress) →
       (∃ q ∈ newC.neighbors,
          q.config.neighborAddress = nb.config.neighborAddress) →
        nb ∉ (UpdateNeighborConfig curC newC).1
        ∧ nb ∉ (UpdateNeighborConfig curC newC).2.1)
      ∧ (nb ∈ (UpdateNeighborConfig curC newC).2.2 →
          nb ∉ (UpdateNeighborConfig curC newC).1
          ∧ nb ∉ (UpdateNeighborConfig curC newC).2.1)
      ∧ ¬(nb ∈ (UpdateNeighborConfig curC newC).1
          ∧ nb ∈ (UpdateNeighborConfig curC newC).2.1)) := by
  constructor
  · intro pg
    refine ⟨fun hcur hnew => ⟨?_, ?_⟩, fun hupd => ⟨?_, ?_⟩, ?_⟩
    · intro ha
      rcases hcur with ⟨q, hq, hname⟩
      exact existPeerGroup_ne_none q hq hname (mem_addedPg_iff.mp ha).2
    · intro hd
      rcases hnew with ⟨q, hq, hname⟩
      exact existPeerGroup_ne_none q hq hname (mem_deletedPg_iff.mp hd).2
    · intro ha
      rcases (mem_updatedPg_iff.mp hupd).2 with ⟨cur, hcur', _⟩
      rw [(mem_addedPg_iff.mp ha).2] at hcur'
      cases hcur'
    · intro hd
      exact existPeerGroup_ne_none pg (mem_updatedPg_iff.mp hupd).1 rfl
        (mem_deletedPg_iff.mp hd).2
    · rintro ⟨ha, hd⟩
      exact existPeerGroup_ne_none pg (mem_deletedPg_iff.mp hd).1 rfl
        (mem_addedPg_iff.mp ha).2
  · intro nb
    refine ⟨fun hcur hnew => ⟨?_, ?_⟩, fun hupd => ⟨?_, ?_⟩, ?_⟩
    · intro ha
      rcases hcur with ⟨q, hq, haddr⟩
      exact inSlice_ne_none q hq haddr (mem_addedNbr_iff.mp ha).2
    · intro hd
      rcases hnew with ⟨q, hq, haddr⟩
      exact inSlice_ne_none q hq haddr (mem_deletedNbr_iff.mp hd).2
    · intro ha
      rcases (mem_updatedNbr_iff.mp hupd).2 with ⟨cur, hcur', _⟩
      rw [(mem_addedNbr_iff.mp ha).2] at hcur'
      cases hcur'
    · intro hd
      exact inSlice_ne_none nb (mem_updatedNbr_iff.mp hupd).1 rfl
        (mem_deletedNbr_iff.mp hd).2
    · rintro ⟨ha, hd⟩
      exact inSlice_ne_none nb (mem_deletedNbr_iff.mp hd).1 rfl
        (mem_addedNbr_iff.mp ha).2

/-- Witness for claim C9: the peer group `{A, 65002}`, whose name is
present in both scenario snapshots, is in neither `added` nor
`deleted`. -/
theorem diff_added_deleted_disjoint_witness :
    pgA2 ∉ (UpdatePeerGroupConfig cfgOld cfgNew).1
    ∧ pgA2 ∉ (UpdatePeerGroupConfig cfgOld cfgNew).2.1 :=
  ((diff_added_deleted_disjoint cfgOld cfgNew).1 pgA2).1
    ⟨pgA1, by decide, by decide⟩ ⟨pgA2, by decide, by decide⟩

/-- Claim C10: the not-found counter never decreases on any loop
iteration — a successful load and publish does not reset it — and once
it has reached 5, every further NotFound failure skips the
sleep-and-retry path: it always logs a warning-level report, exits
fatally when no snapshot was ever published (`cnt = 0`), and returns to
awaiting the next event otherwise. -/
theorem notFoundCnt_never_reset :
    (∀ (s : LoopState) (r : LoadResult),
        s.notFoundCnt ≤ (loopStep s r).state.notFoundCnt)
    ∧ (∀ s : LoopState, 5 ≤ s.notFoundCnt →
        (loopStep s .notFound).outcome ≠ .retry
        ∧ (loopStep s .notFound).warned = true
        ∧ (s.cnt = 0 → (loopStep s .notFound).outcome = .fatalExit)
        ∧ (s.cnt ≠ 0 → (loopStep s .notFound).outcome = .awaitEvent)) := by
  constructor
  · intro s r
    cases r with
    | ok c => simp [loopStep]
    | notFound =>
        by_cases h5 : s.notFoundCnt + 1 < 5 <;> by_cases hc : s.cnt = 0 <;>
          simp [loopStep, h5, hc]
    | otherError =>
        by_cases hc : s.cnt = 0 <;> simp [loopStep, hc]
  · intro s h5
    have h5' : ¬ s.notFoundCnt + 1 < 5 := by omega
    by_cases hc : s.cnt = 0 <;> simp [loopStep, h5', hc]

/-- Witness for claim C10 at the concrete state
`cnt = 0, notFoundCnt = 5`: the next NotFound failure is fatal. -/
theorem notFoundCnt_never_reset_witness :
    (loopStep ⟨0, 5⟩ .notFound).outcome = .fatalExit :=
  ((notFoundCnt_never_reset.2 ⟨0, 5⟩ (by decide)).2.2.1) rfl

end Config
